import Mathlib

/-!
Shallow embedding of the `yt_transcribe` command-line utility
(`src/cli.py` and `src/core.py`) and proofs of its specified properties.

External collaborators (yt-dlp, ffmpeg, the Whisper model runtime, CUDA
availability) are modelled as parameters: pure functions supplied through
environment records.  The filesystem is modelled as an association list
from paths to byte contents.  Python floats are modelled as rationals;
every float compared here (0.0, 1.0 and argparse-parsed temperatures) is
compared only against the exactly representable bounds 0 and 1, and IEEE
comparison agrees with the rational order on the values involved.
-/

deriving instance DecidableEq for Except

namespace YtTranscribe

/-! ## Filesystem model -/

/-- A filesystem: paths mapped to byte contents.  Later entries are
shadowed by earlier ones; `fsWrite` keeps at most one entry per path. -/
abbrev FS := List (String × List Nat)

/-- Create or overwrite the file at `p` with content `c`. -/
def fsWrite (fs : FS) (p : String) (c : List Nat) : FS :=
  (p, c) :: fs.filter (fun e => e.1 != p)

/-- Read the content of the file at `p`, if present. -/
def fsRead (fs : FS) (p : String) : Option (List Nat) :=
  (fs.find? (fun e => e.1 == p)).map Prod.snd

/-- `os.path.exists` for the model filesystem. -/
def fsExists (fs : FS) (p : String) : Bool :=
  fs.any (fun e => e.1 == p)

/-- `os.remove` for the model filesystem. -/
def fsRemove (fs : FS) (p : String) : FS :=
  fs.filter (fun e => e.1 != p)

/-- `p` names a file inside directory `d` (its path starts with `d ++ "/"`). -/
def underDir (d p : String) : Bool :=
  p.data.take (d.data.length + 1) == (d ++ "/").data

/-- `shutil.rmtree d` (what `tempfile.TemporaryDirectory.__exit__` runs):
remove every file under directory `d`. -/
def fsRemoveDir (fs : FS) (d : String) : FS :=
  fs.filter (fun e => !(underDir d e.1))

/-! ## `os.path.splitext` (CPython `genericpath._splitext` with `sep = '/'`,
`extsep = '.'`) -/

/-- `str.rfind` for a single character: index of the last occurrence,
`-1` when absent. -/
def rfindChar (s : List Char) (c : Char) : Int :=
  match s.reverse.findIdx? (fun x => x == c) with
  | none => -1
  | some j => Int.ofNat (s.length - 1 - j)

/-- `os.path.splitext`: split off the extension at the last dot of the
last path component, unless every character of that component before the
dot is itself a dot (leading dots of a basename start no extension). -/
def splitext (p : String) : String × String :=
  let s := p.data
  let sepIndex := rfindChar s '/'
  let dotIndex := rfindChar s '.'
  if sepIndex < dotIndex then
    if ((s.take dotIndex.toNat).drop (sepIndex + 1).toNat).any (fun x => x != '.') then
      (⟨s.take dotIndex.toNat⟩, ⟨s.drop dotIndex.toNat⟩)
    else (p, "")
  else (p, "")

/-! ## CLI arguments and validation (`cli.py`, `main`) -/

/-- The parsed command-line arguments (the `argparse` namespace). -/
structure Args where
  url : String
  output : String
  model : String
  language : Option String
  temperature : ℚ
  no_fp16 : Bool
deriving DecidableEq

/-- The model sizes accepted by the `assert args.model in [...]` check. -/
def validModels : List String := ["tiny", "base", "small", "medium", "large-v3"]

/-- The chain of `assert` statements in `main`, in source order:
truthy url, model in the list, temperature within bounds, `.txt`
extension, output not existing.  Returns the message of the first failing
assertion, or `none` when every assertion passes. -/
def validate (a : Args) (outputExists : Bool) : Option String :=
  if a.url = "" then some "You must provide a YouTube URL or - for stdin"
  else if a.model ∉ validModels then some "Invalid model name"
  else if ¬ (0 ≤ a.temperature ∧ a.temperature ≤ 1) then
    some "Temperature must be between 0.0 and 1.0"
  else if (splitext a.output).2 ≠ ".txt" then
    some "Output file must have .txt extension"
  else if outputExists then
    some ("Output file " ++ a.output ++ " already exists")
  else none

/-! ## `transcribe_wav` (`core.py`) -/

/-- Remove leading and trailing whitespace from a character list. -/
def stripChars (s : List Char) : List Char :=
  ((s.dropWhile Char.isWhitespace).reverse.dropWhile Char.isWhitespace).reverse

/-- Python `str.strip()` with no argument: drop whitespace at both
ends. -/
def pystrip (s : String) : String := ⟨stripChars s.data⟩

/-- The `wav` argument of `transcribe_wav`: a path string, raw bytes, or
a file-like object (anything with `.read`), which the source drains with
`wav.read()`. -/
inductive WavInput where
  | path : String → WavInput
  | bytes : List Nat → WavInput
  | stream : List Nat → WavInput
deriving DecidableEq

/-- External collaborators of `transcribe_wav`: CUDA availability,
`whisper.load_model` (may raise), and the loaded model's `transcribe`
call, a function of the model name, the device, the content of the file
at `wav_path` (absent files make the call fail inside the library), the
language, the temperature and the fp16 flag. -/
structure TransEnv where
  cudaAvailable : Bool
  load : String → String → Except String Unit
  infer : String → String → Option (List Nat) → Option String → ℚ → Bool →
    Except String String

/-- Result of a `transcribe_wav` call: the returned text (or the raised
error) and the filesystem after the call. -/
structure TransResult where
  result : Except String String
  fs : FS
deriving DecidableEq

/-- `core.transcribe_wav`.  `tmpName` is the fresh name
`tempfile.NamedTemporaryFile` would pick for this call.  Mirrors the
source: pick the device, default `fp16` from the device when it is
`None`, load the model, normalize bytes/stream input to a temporary
file, run `model.transcribe` inside `try`, and in the `finally` block
remove the temporary file when one was created and still exists; the
returned text is `result.get("text", "").strip()`. -/
def transcribe_wav (env : TransEnv) (fs : FS) (tmpName : String)
    (wav : WavInput) (model_name : String) (language : Option String)
    (temperature : ℚ) (fp16 : Option Bool) : TransResult :=
  let device := if env.cudaAvailable then "cuda" else "cpu"
  let fp16v := match fp16 with
    | none => device == "cuda"
    | some b => b
  match env.load model_name device with
  | .error e => ⟨.error e, fs⟩
  | .ok _ =>
    let norm : Option String × String × FS :=
      match wav with
      | .bytes b => (some tmpName, tmpName, fsWrite fs tmpName b)
      | .stream b => (some tmpName, tmpName, fsWrite fs tmpName b)
      | .path p => (none, p, fs)
    let fs1 := norm.2.2
    let raw := env.infer model_name device (fsRead fs1 norm.2.1) language temperature fp16v
    let fs2 := match norm.1 with
      | some t => if fsExists fs1 t then fsRemove fs1 t else fs1
      | none => fs1
    ⟨match raw with
     | .error e => .error e
     | .ok text => .ok (pystrip text), fs2⟩

/-! ## `download_audio_as_wav_bytes` (`core.py`) -/

/-- External steps of acquisition, as observable events: one
`yt_dlp.YoutubeDL.extract_info(url, download=True)` call, and one
`subprocess.run` of an argv. -/
inductive AcqEvent where
  | download : String → AcqEvent
  | runCmd : List String → AcqEvent
deriving DecidableEq

/-- External collaborators of `download_audio_as_wav_bytes`: the name of
the process-scoped temporary directory, the downloader (returns the
resolved extension of `input.%(ext)s` and the downloaded bytes, or
raises), and ffmpeg (a function of the argv and the input file content,
producing the content written to `output.wav`, or a `CalledProcessError`
from `check=True`). -/
structure AcqEnv where
  tmpdirName : String
  ytdlp : String → Except String (String × List Nat)
  ffmpeg : List String → List Nat → Except String (List Nat)

/-- Result of an acquisition: the returned WAV bytes (or the propagated
error), the filesystem after the `with tempfile.TemporaryDirectory()`
block exits, and the external calls that were made, in order. -/
structure AcqResult where
  result : Except String (List Nat)
  fs : FS
  events : List AcqEvent
deriving DecidableEq

/-- The argv built for the transcoder in step 2 of the source: force WAV
with raw 16-bit PCM samples, 44100 Hz sample rate, 2 channels. -/
def ffmpegCmd (input output : String) : List String :=
  ["ffmpeg", "-y", "-i", input, "-vn", "-acodec", "pcm_s16le",
   "-ar", "44100", "-ac", "2", output]

/-- `core.download_audio_as_wav_bytes`: download the best audio into the
temporary directory, transcode it to `output.wav` with the fixed ffmpeg
argv, read the transcoded file fully into memory, and remove the whole
temporary directory on every exit path (the context manager's cleanup). -/
def download_audio_as_wav_bytes (env : AcqEnv) (fs : FS) (url : String) :
    AcqResult :=
  let tmpdir := env.tmpdirName
  let output_path := tmpdir ++ "/output.wav"
  match env.ytdlp url with
  | .error e => ⟨.error e, fsRemoveDir fs tmpdir, [.download url]⟩
  | .ok (ext, content) =>
    let downloaded := tmpdir ++ "/input." ++ ext
    let fs1 := fsWrite fs downloaded content
    let cmd := ffmpegCmd downloaded output_path
    match env.ffmpeg cmd content with
    | .error e => ⟨.error e, fsRemoveDir fs1 tmpdir, [.download url, .runCmd cmd]⟩
    | .ok w =>
      let fs2 := fsWrite fs1 output_path w
      match fsRead fs2 output_path with
      | some wav_bytes =>
        ⟨.ok wav_bytes, fsRemoveDir fs2 tmpdir, [.download url, .runCmd cmd]⟩
      | none =>
        ⟨.error "output.wav missing", fsRemoveDir fs2 tmpdir,
         [.download url, .runCmd cmd]⟩

/-! ## `main` (`cli.py`) -/

/-- The externally observable actions of one `main` run, in order.
`readStdin` is never emitted by `mainRun` because no code path of
`main` reads standard input. -/
inductive MainEvent where
  | downloadUrl : String → MainEvent
  | transcribeCall : String → Option String → ℚ → Bool → MainEvent
  | readStdin : MainEvent
  | fileWrite : String → String → MainEvent
deriving DecidableEq

/-- Is this event the write of the output file? -/
def isFileWrite : MainEvent → Bool
  | .fileWrite _ _ => true
  | _ => false

/-- External world of `main`: whether `os.path.exists(args.output)`
holds at validation time, the behaviour of
`download_audio_as_wav_bytes`, and the behaviour of `transcribe_wav` as
a function of the audio bytes, model name, language, temperature and the
fp16 argument `main` passes. -/
structure CliEnv where
  outputExists : Bool
  acq : String → Except String (List Nat)
  trans : List Nat → String → Option String → ℚ → Bool → Except String String

/-- Result of one `main` run: normal return or the raised error, the
observable events in order, and the single file write (path, content)
when one happened. -/
structure MainResult where
  result : Except String Unit
  events : List MainEvent
  written : Option (String × String)
deriving DecidableEq

/-- `cli.main` after argument parsing: run the assertion chain, then
unconditionally call `download_audio_as_wav_bytes(args.url)` (also for
`url = "-"`), then `transcribe_wav` with
`fp16 = (not args.no_fp16)` — an explicit bool, never `None` — then
prefix the text with the source line and write it, plus a trailing
newline, to the output file. -/
def mainRun (env : CliEnv) (args : Args) : MainResult :=
  match validate args env.outputExists with
  | some msg => ⟨.error msg, [], none⟩
  | none =>
    match env.acq args.url with
    | .error e => ⟨.error e, [.downloadUrl args.url], none⟩
    | .ok audio_bytes =>
      let fp16 := !args.no_fp16
      match env.trans audio_bytes args.model args.language args.temperature fp16 with
      | .error e =>
        ⟨.error e,
         [.downloadUrl args.url,
          .transcribeCall args.model args.language args.temperature fp16], none⟩
      | .ok text =>
        let content := "Source: " ++ args.url ++ "\n\n" ++ text ++ "\n"
        ⟨.ok (),
         [.downloadUrl args.url,
          .transcribeCall args.model args.language args.temperature fp16,
          .fileWrite args.output content],
         some (args.output, content)⟩

/-! ## Concrete environments and arguments used to instantiate the
theorems below -/

/-- A downloader that always raises (models a yt-dlp failure). -/
def stubAcqFail : String → Except String (List Nat) :=
  fun _ => .error "yt-dlp error"

/-- A transcription stub for runs that never reach the transcription
step. -/
def stubTransFail : List Nat → String → Option String → ℚ → Bool →
    Except String String :=
  fun _ _ _ _ _ => .error "not reached"

/-- CLI environment with no pre-existing output file and a failing
downloader. -/
def failEnv : CliEnv := ⟨false, stubAcqFail, stubTransFail⟩

/-- Arguments whose positional argument is the stdin marker. -/
def dashArgs : Args := ⟨"-", "out.txt", "base", none, 0, false⟩

/-- Arguments with an empty positional argument. -/
def emptyUrlArgs : Args := ⟨"", "out.txt", "base", none, 0, false⟩

/-- CLI environment for a fully successful run: acquisition returns a
small buffer and transcription returns a fixed text. -/
def okEnv : CliEnv :=
  ⟨false, fun _ => .ok [1, 2], fun _ _ _ _ _ => .ok "hello world"⟩

/-- Arguments of a valid configuration. -/
def okArgs : Args := ⟨"http://example", "o.txt", "base", none, 0, false⟩

/-- An instrumented model call that reports the precision flag it was
invoked with. -/
def reportFp16 : String → String → Option (List Nat) → Option String → ℚ →
    Bool → Except String String :=
  fun _ _ _ _ _ f => .ok (if f then "FP16" else "FP32")

/-- Transcription environment of a machine with no accelerator, with a
successful model load and the instrumented model call. -/
def cpuEnv : TransEnv := ⟨false, fun _ _ => .ok (), reportFp16⟩

/-- The full CLI-to-`transcribe_wav` pipeline on a CPU-only machine:
`main`'s call site passes `fp16 = (not args.no_fp16)` through to
`transcribe_wav` as an explicit (non-`None`) argument. -/
def c2Env : CliEnv :=
  { outputExists := false
    acq := fun _ => .ok [0]
    trans := fun b m l t f =>
      (transcribe_wav cpuEnv [] "tmp0.wav" (.bytes b) m l t (some f)).result }

/-- A run in which the user did not pass `--no-fp16`. -/
def c2Args : Args := ⟨"u", "o.txt", "base", none, 0, false⟩

/-- Arguments of claim C8: everything valid except possibly the
temperature. -/
def c8Args (t : ℚ) : Args := ⟨"u", "o.txt", "base", none, t, false⟩

/-- Acquisition environment whose downloader raises. -/
def acqFailEnv : AcqEnv :=
  ⟨"/tmp/t", fun _ => .error "DownloadError", fun _ _ => .error "x"⟩

/-- Acquisition environment whose downloader succeeds and whose
transcoder raises. -/
def ffFailEnv : AcqEnv :=
  ⟨"/tmp/t", fun _ => .ok ("m4a", [7]), fun _ _ => .error "TranscodeError"⟩

/-- Acquisition environment in which both external steps succeed. -/
def acqOkEnv : AcqEnv :=
  ⟨"/tmp/t", fun _ => .ok ("m4a", [7]), fun _ c => .ok (0 :: c)⟩

/-! ## Helper lemmas about the filesystem model -/

theorem fsRead_fsWrite_self (fs : FS) (p : String) (c : List Nat) :
    fsRead (fsWrite fs p c) p = some c := by
  simp [fsRead, fsWrite, List.find?_cons_of_pos]

theorem fsExists_fsWrite_self (fs : FS) (p : String) (c : List Nat) :
    fsExists (fsWrite fs p c) p = true := by
  simp [fsExists, fsWrite]

theorem fsExists_fsRemove_self (fs : FS) (p : String) :
    fsExists (fsRemove fs p) p = false := by
  rw [Bool.eq_false_iff]
  intro hc
  rcases List.any_eq_true.mp hc with ⟨e, he, heq⟩
  rcases List.mem_filter.mp he with ⟨_, hkeep⟩
  rw [beq_iff_eq] at heq
  simp [heq] at hkeep

theorem fsExists_fsRemoveDir (fs : FS) (d p : String)
    (h : underDir d p = true) :
    fsExists (fsRemoveDir fs d) p = false := by
  rw [Bool.eq_false_iff]
  intro hc
  rcases List.any_eq_true.mp hc with ⟨e, he, heq⟩
  rcases List.mem_filter.mp he with ⟨_, hkeep⟩
  rw [beq_iff_eq] at heq
  rw [heq, h] at hkeep
  simp at hkeep

/-! ## Helper lemmas about validation -/

theorem validate_none_iff (a : Args) (ex : Bool) :
    validate a ex = none ↔
      (a.url ≠ "" ∧ a.model ∈ validModels ∧ 0 ≤ a.temperature ∧
        a.temperature ≤ 1 ∧ (splitext a.output).2 = ".txt" ∧ ex = false) := by
  unfold validate
  split_ifs with h1 h2 h3 h4 h5 <;> simp_all

theorem splitext_txt_suffix (p : String) (h : (splitext p).2 = ".txt") :
    ".txt".data <:+ p.data := by
  unfold splitext at h
  simp only [] at h
  split at h
  · split at h
    · have hd : (String.mk (p.data.drop (rfindChar p.data '.').toNat)).data =
          String.data ".txt" := congrArg String.data h
      rw [← hd]
      exact List.drop_suffix _ _
    · simp at h
  · simp at h

/-! ## Claim theorems -/

/-- C1: the claim says that for the stdin marker `-` the program reads
raw audio bytes from standard input and performs no URL download.  The
code does the opposite: `main` passes `args.url` — including `"-"` — to
`download_audio_as_wav_bytes` unconditionally, and no code path of
`main` reads standard input.  At the concrete invocation with positional
argument `"-"`, the run's first (and only) observable action is a URL
download of `"-"` and no stdin read occurs. -/
theorem c1_stdin_marker_still_downloads :
    (mainRun failEnv dashArgs).events = [MainEvent.downloadUrl "-"] ∧
    MainEvent.readStdin ∉ (mainRun failEnv dashArgs).events := by
  decide

/-- C2 counterexample: at a CPU-only machine (`cudaAvailable = false`)
with `--no-fp16` absent (`no_fp16 = false`), the CLI invokes the
transcription step with `fp16 = true` (second event of the run), and
`transcribe_wav` given that explicit argument runs the model with
reduced precision (the instrumented model call reports `"FP16"`) — the
claim says full precision should be used when no accelerator is
present. -/
theorem c2_fp16_counterexample :
    c2Args.no_fp16 = false ∧ cpuEnv.cudaAvailable = false ∧
    (mainRun c2Env c2Args).events.get? 1 =
      some (MainEvent.transcribeCall "base" none 0 true) ∧
    (mainRun c2Env c2Args).written = some ("o.txt", "Source: u\n\nFP16\n") := by
  decide

/-- C2 amended: the CLI always passes an explicit precision argument,
`fp16 = (not args.no_fp16)`, to the transcription step — reduced
precision whenever `--no-fp16` is absent, regardless of accelerator
availability; the accelerator-based default exists only inside
`transcribe_wav` for an unset (`None`) `fp16` parameter, which the CLI
never leaves unset. -/
theorem c2_fp16_amended (env : CliEnv) (args : Args) (b : List Nat)
    (cuda : Bool) (fs : FS) (nm mn : String) (l : Option String) (t : ℚ)
    (c : List Nat)
    (hv : validate args env.outputExists = none)
    (ha : env.acq args.url = .ok b) :
    (mainRun env args).events.get? 1 =
      some (.transcribeCall args.model args.language args.temperature
        (!args.no_fp16)) ∧
    (transcribe_wav ⟨cuda, fun _ _ => .ok (), reportFp16⟩ fs nm (.bytes c)
        mn l t none).result = .ok (if cuda then "FP16" else "FP32") := by
  constructor
  · cases ht : env.trans b args.model args.language args.temperature
      (!args.no_fp16) with
    | error e => simp [mainRun, hv, ha, ht]
    | ok text => simp [mainRun, hv, ha, ht]
  · cases cuda <;>
      simp [transcribe_wav, reportFp16, fsRead_fsWrite_self, pystrip, stripChars]

/-- C2 amended, witness at a concrete valid run on a CPU-only machine. -/
theorem c2_fp16_amended_witness :
    (mainRun okEnv okArgs).events.get? 1 =
      some (.transcribeCall okArgs.model okArgs.language okArgs.temperature
        (!okArgs.no_fp16)) ∧
    (transcribe_wav ⟨false, fun _ _ => .ok (), reportFp16⟩ [] "t.wav"
        (.bytes [5]) "base" none 0 none).result =
      .ok (if false then "FP16" else "FP32") :=
  c2_fp16_amended okEnv okArgs [1, 2] false [] "t.wav" "base" none 0 [5]
    (by decide) rfl

/-- C8: with every other field of the configuration valid, the
assertion chain accepts a temperature `t` exactly when
`0 ≤ t ∧ t ≤ 1`; in particular the boundary values `0` and `1` are
accepted and `-0.01` and `1.01` are rejected. -/
theorem c8_temperature_range (t : ℚ) :
    ((validate (c8Args t) false = none) ↔ (0 ≤ t ∧ t ≤ 1)) ∧
    validate (c8Args 0) false = none ∧
    validate (c8Args 1) false = none ∧
    validate (c8Args (-1/100)) false ≠ none ∧
    validate (c8Args (101/100)) false ≠ none := by
  have key : ∀ q : ℚ, (validate (c8Args q) false = none) ↔ (0 ≤ q ∧ q ≤ 1) := by
    intro q
    rw [validate_none_iff]
    constructor
    · rintro ⟨-, -, h1, h2, -, -⟩
      exact ⟨h1, h2⟩
    · rintro ⟨h1, h2⟩
      refine ⟨?_, ?_, h1, h2, ?_, rfl⟩
      · simp [c8Args]
      · simp [c8Args, validModels]
      · show (splitext "o.txt").2 = ".txt"
        decide
  refine ⟨key t, (key 0).mpr (by norm_num), (key 1).mpr (by norm_num), ?_, ?_⟩
  · rw [Ne, key]
    rintro ⟨h, -⟩
    norm_num at h
  · rw [Ne, key]
    rintro ⟨-, h⟩
    norm_num at h

/-- C8 witness at the interior point `1/2`. -/
theorem c8_temperature_range_witness :
    ((validate (c8Args (1/2)) false = none) ↔
      (0 ≤ (1/2 : ℚ) ∧ (1/2 : ℚ) ≤ 1)) ∧
    validate (c8Args 0) false = none ∧
    validate (c8Args 1) false = none ∧
    validate (c8Args (-1/100)) false ≠ none ∧
    validate (c8Args (101/100)) false ≠ none :=
  c8_temperature_range (1/2)

/-- C3: any invalid configuration (empty URL, model outside the allowed
set, temperature outside `[0, 1]`, output path not ending in `.txt`, or
output path already existing) makes the run terminate with an error
before any download, transcode or model work, with zero observable
events and nothing written; and for a configuration that passes
validation, the first observable action of the run is the download —
validation has completed before any network or model code runs. -/
theorem c3_validation_short_circuits (env : CliEnv) (args : Args) :
    ((args.url = "" ∨ args.model ∉ validModels ∨ args.temperature < 0 ∨
        1 < args.temperature ∨ ¬ (".txt".data <:+ args.output.data) ∨
        env.outputExists = true) →
      (mainRun env args).events = [] ∧ (mainRun env args).written = none ∧
        ∃ m, (mainRun env args).result = .error m) ∧
    (validate args env.outputExists = none →
      (mainRun env args).events.head? = some (.downloadUrl args.url)) := by
  constructor
  · intro hbr
    cases hv : validate args env.outputExists with
    | some msg => simp [mainRun, hv]
    | none =>
      exfalso
      rcases (validate_none_iff args env.outputExists).mp hv with
        ⟨h1, h2, h3, h4, h5, h6⟩
      rcases hbr with h | h | h | h | h | h
      · exact h1 h
      · exact h h2
      · exact absurd h3 (not_le.mpr h)
      · exact absurd h4 (not_le.mpr h)
      · exact h (splitext_txt_suffix _ h5)
      · rw [h6] at h
        exact Bool.false_ne_true h
  · intro hv
    cases ha : env.acq args.url with
    | error e => simp [mainRun, hv, ha]
    | ok b =>
      cases ht : env.trans b args.model args.language args.temperature
        (!args.no_fp16) with
      | error e => simp [mainRun, hv, ha, ht]
      | ok text => simp [mainRun, hv, ha, ht]

/-- C3 witness: an empty positional argument short-circuits with no
events and nothing written. -/
theorem c3_validation_short_circuits_witness :
    (mainRun failEnv emptyUrlArgs).events = [] ∧
    (mainRun failEnv emptyUrlArgs).written = none ∧
    ∃ m, (mainRun failEnv emptyUrlArgs).result = .error m :=
  (c3_validation_short_circuits failEnv emptyUrlArgs).1 (Or.inl rfl)

/-- C4: a successful run with source URL `u` and transcript `t` performs
exactly one file write, and the output file's content is
`"Source: " ++ u ++ "\n\n" ++ t ++ "\n"`: the Source line, a blank
line, the transcript, and a trailing newline. -/
theorem c4_output_content (env : CliEnv) (args : Args) (b : List Nat)
    (t : String)
    (hv : validate args env.outputExists = none)
    (ha : env.acq args.url = .ok b)
    (ht : env.trans b args.model args.language args.temperature
      (!args.no_fp16) = .ok t) :
    (mainRun env args).written =
      some (args.output, "Source: " ++ args.url ++ "\n\n" ++ t ++ "\n") ∧
    ((mainRun env args).events.countP isFileWrite) = 1 ∧
    (mainRun env args).result = .ok () := by
  refine ⟨?_, ?_, ?_⟩ <;>
    simp [mainRun, hv, ha, ht, isFileWrite, List.countP, List.countP.go]

/-- C4 witness: a concrete successful run writes
`Source: http://example`, a blank line, `hello world`, and a trailing
newline. -/
theorem c4_output_content_witness :
    (mainRun okEnv okArgs).written =
      some (okArgs.output,
        "Source: " ++ okArgs.url ++ "\n\n" ++ "hello world" ++ "\n") ∧
    ((mainRun okEnv okArgs).events.countP isFileWrite) = 1 ∧
    (mainRun okEnv okArgs).result = .ok () :=
  c4_output_content okEnv okArgs [1, 2] "hello world" (by decide) rfl rfl

/-- C5: when `transcribe_wav` is given a byte buffer or a readable
stream, the temporary file it materializes (at the fresh name
`tempfile` would choose) is absent from the filesystem after the call,
whatever the environment does — model load failure, inference failure
and success alike. -/
theorem c5_tmpfile_cleanup (env : TransEnv) (fs : FS) (nm : String)
    (b : List Nat) (mn : String) (l : Option String) (t : ℚ)
    (f : Option Bool)
    (hfresh : fsExists fs nm = false) :
    fsExists (transcribe_wav env fs nm (.bytes b) mn l t f).fs nm = false ∧
    fsExists (transcribe_wav env fs nm (.stream b) mn l t f).fs nm = false := by
  constructor <;>
  · cases h : env.load mn (if env.cudaAvailable then "cuda" else "cpu") with
    | error e => simp [transcribe_wav, h, hfresh]
    | ok u =>
      simp [transcribe_wav, h, fsExists_fsWrite_self, fsExists_fsRemove_self]

/-- C5 witness: on an initially empty filesystem the temporary file is
gone after a successful bytes call and a successful stream call. -/
theorem c5_tmpfile_cleanup_witness :
    fsExists (transcribe_wav cpuEnv [] "tmp.wav" (.bytes [1]) "base" none 0
      none).fs "tmp.wav" = false ∧
    fsExists (transcribe_wav cpuEnv [] "tmp.wav" (.stream [1]) "base" none 0
      none).fs "tmp.wav" = false :=
  c5_tmpfile_cleanup cpuEnv [] "tmp.wav" [1] "base" none 0 none rfl

/-- C6: if the downloader raises, the acquisition propagates exactly
that error, makes no further external call (no transcode, no retry);
if the downloader succeeds and the transcoder fails, the acquisition
propagates exactly that error after the single download and the single
transcoder invocation; and on every path — failure or success — no file
under the process-scoped temporary directory remains afterwards. -/
theorem c6_acquisition_failure (env : AcqEnv) (fs : FS) (url : String) :
    (∀ e, env.ytdlp url = .error e →
      (download_audio_as_wav_bytes env fs url).result = .error e ∧
      (download_audio_as_wav_bytes env fs url).events = [.download url]) ∧
    (∀ ext c e, env.ytdlp url = .ok (ext, c) →
      env.ffmpeg (ffmpegCmd (env.tmpdirName ++ "/input." ++ ext)
        (env.tmpdirName ++ "/output.wav")) c = .error e →
      (download_audio_as_wav_bytes env fs url).result = .error e ∧
      (download_audio_as_wav_bytes env fs url).events =
        [.download url,
         .runCmd (ffmpegCmd (env.tmpdirName ++ "/input." ++ ext)
           (env.tmpdirName ++ "/output.wav"))]) ∧
    (∀ p, underDir env.tmpdirName p = true →
      fsExists (download_audio_as_wav_bytes env fs url).fs p = false) := by
  refine ⟨?_, ?_, ?_⟩
  · intro e h
    simp [download_audio_as_wav_bytes, h]
  · intro ext c e h1 h2
    simp [download_audio_as_wav_bytes, h1, h2]
  · intro p hp
    cases h1 : env.ytdlp url with
    | error e => simpa [download_audio_as_wav_bytes, h1] using
        fsExists_fsRemoveDir fs env.tmpdirName p hp
    | ok pr =>
      obtain ⟨ext, c⟩ := pr
      cases h2 : env.ffmpeg
        (ffmpegCmd (env.tmpdirName ++ "/input." ++ ext)
          (env.tmpdirName ++ "/output.wav")) c with
      | error e =>
        simpa [download_audio_as_wav_bytes, h1, h2] using
          fsExists_fsRemoveDir _ env.tmpdirName p hp
      | ok w =>
        simp [download_audio_as_wav_bytes, h1, h2, fsRead_fsWrite_self,
          fsExists_fsRemoveDir _ env.tmpdirName p hp]

/-- C6 witness: a failing downloader propagates `DownloadError` after a
single download attempt, and the scratch file location under the
temporary directory is absent afterwards. -/
theorem c6_acquisition_failure_witness :
    (download_audio_as_wav_bytes acqFailEnv [] "u").result =
      .error "DownloadError" ∧
    (download_audio_as_wav_bytes acqFailEnv [] "u").events =
      [.download "u"] ∧
    fsExists (download_audio_as_wav_bytes acqFailEnv [] "u").fs
      "/tmp/t/output.wav" = false ∧
    (download_audio_as_wav_bytes ffFailEnv [] "u").result =
      .error "TranscodeError" ∧
    fsExists (download_audio_as_wav_bytes ffFailEnv [] "u").fs
      "/tmp/t/input.m4a" = false :=
  ⟨((c6_acquisition_failure acqFailEnv [] "u").1 "DownloadError" rfl).1,
   ((c6_acquisition_failure acqFailEnv [] "u").1 "DownloadError" rfl).2,
   (c6_acquisition_failure acqFailEnv [] "u").2.2 "/tmp/t/output.wav"
     (by decide),
   ((c6_acquisition_failure ffFailEnv [] "u").2.1 "m4a" [7] "TranscodeError"
     rfl rfl).1,
   (c6_acquisition_failure ffFailEnv [] "u").2.2 "/tmp/t/input.m4a"
     (by decide)⟩

/-- C7: when both external steps succeed, the transcoder is invoked with
the argv forcing WAV output with 16-bit PCM samples (`pcm_s16le`), a
44100 Hz sample rate and 2 channels, writing `output.wav` in the
temporary directory, and the acquisition returns exactly the bytes the
transcoder wrote there — the entire transcoded file read into memory. -/
theorem c7_transcode_format (env : AcqEnv) (fs : FS) (url ext : String)
    (c w : List Nat)
    (h1 : env.ytdlp url = .ok (ext, c))
    (h2 : env.ffmpeg (ffmpegCmd (env.tmpdirName ++ "/input." ++ ext)
      (env.tmpdirName ++ "/output.wav")) c = .ok w) :
    (download_audio_as_wav_bytes env fs url).result = .ok w ∧
    (download_audio_as_wav_bytes env fs url).events =
      [.download url,
       .runCmd (ffmpegCmd (env.tmpdirName ++ "/input." ++ ext)
         (env.tmpdirName ++ "/output.wav"))] ∧
    ffmpegCmd (env.tmpdirName ++ "/input." ++ ext)
        (env.tmpdirName ++ "/output.wav") =
      ["ffmpeg", "-y", "-i", env.tmpdirName ++ "/input." ++ ext, "-vn",
       "-acodec", "pcm_s16le", "-ar", "44100", "-ac", "2",
       env.tmpdirName ++ "/output.wav"] := by
  refine ⟨?_, ?_, rfl⟩ <;>
    simp [download_audio_as_wav_bytes, h1, h2, fsRead_fsWrite_self]

/-- C7 witness: both steps succeed; the returned buffer is exactly what
the transcoder wrote. -/
theorem c7_transcode_format_witness :
    (download_audio_as_wav_bytes acqOkEnv [] "u").result = .ok [0, 7] ∧
    (download_audio_as_wav_bytes acqOkEnv [] "u").events =
      [.download "u",
       .runCmd (ffmpegCmd (acqOkEnv.tmpdirName ++ "/input." ++ "m4a")
         (acqOkEnv.tmpdirName ++ "/output.wav"))] ∧
    ffmpegCmd (acqOkEnv.tmpdirName ++ "/input." ++ "m4a")
        (acqOkEnv.tmpdirName ++ "/output.wav") =
      ["ffmpeg", "-y", "-i", acqOkEnv.tmpdirName ++ "/input." ++ "m4a",
       "-vn", "-acodec", "pcm_s16le", "-ar", "44100", "-ac", "2",
       acqOkEnv.tmpdirName ++ "/output.wav"] :=
  c7_transcode_format acqOkEnv [] "u" "m4a" [7] [0, 7] rfl rfl

/-- C9: the text returned by `transcribe_wav` for a fixed waveform
buffer (given as bytes or as a stream) and fixed decoding parameters —
model size, language, temperature `0` — is the same across any two
calls, whatever filesystems the calls start from and whatever fresh
temporary names they are given: the result depends only on the waveform
content and the parameters. -/
theorem c9_transcription_determinism (env : TransEnv) (fs1 fs2 : FS)
    (n1 n2 : String) (b : List Nat) (mn : String) (l : Option String)
    (f : Option Bool) :
    (transcribe_wav env fs1 n1 (.bytes b) mn l 0 f).result =
      (transcribe_wav env fs2 n2 (.bytes b) mn l 0 f).result ∧
    (transcribe_wav env fs1 n1 (.stream b) mn l 0 f).result =
      (transcribe_wav env fs2 n2 (.stream b) mn l 0 f).result := by
  constructor <;>
  · cases h : env.load mn (if env.cudaAvailable then "cuda" else "cpu") with
    | error e => simp [transcribe_wav, h]
    | ok u => simp [transcribe_wav, h, fsRead_fsWrite_self]

/-- C10: when the input is a file path, `transcribe_wav` leaves the
filesystem exactly as it found it — in particular the input file is
neither deleted nor modified; the guaranteed cleanup only ever removes
the temporary file the function itself created, and for path input none
is created. -/
theorem c10_path_input_untouched (env : TransEnv) (fs : FS)
    (nm p mn : String) (l : Option String) (t : ℚ) (f : Option Bool) :
    (transcribe_wav env fs nm (.path p) mn l t f).fs = fs := by
  cases h : env.load mn (if env.cudaAvailable then "cuda" else "cpu") with
  | error e => simp [transcribe_wav, h]
  | ok u => simp [transcribe_wav, h]

end YtTranscribe
